import Mathlib

/-!
# Verification of the secret-snap CLI core

A shallow embedding of the secretsnap command-line tool (Go) in Lean 4.
Byte strings (`[]byte` and Go `string` values that carry data) are modelled
as `List Nat` with every element below 256; identifier-like strings (paths,
project names, mode labels, error messages) are modelled as Lean `String`.
The filesystem is an association list from paths to file entries; commands
are functions from an explicit state to a result state plus an exit status,
mirroring the Go control flow statement by statement.

The envelope cipher used by every mode is the external library
`filippo.io/age` (scrypt recipient/identity); it is not part of this
repository, so it is modelled as an ideal authenticated encryption
primitive: an envelope records the passphrase-derived key material it was
sealed with, decryption succeeds exactly when the same passphrase is
presented, and any byte string that is not a well-formed envelope fails
decryption opaquely.
-/

namespace Secretsnap

/-- Byte strings: Go `[]byte` and data-carrying `string` values. -/
abbrev ByteStr := List Nat

/-- Wellformedness of a byte string: every element is an actual byte. -/
def BytesWF (bs : ByteStr) : Prop := ∀ b ∈ bs, b < 256

instance : DecidablePred BytesWF := fun bs =>
  List.decidableBAll (fun b => b < 256) bs

/-! ## Base64 (standard encoding, RFC 4648), as used by `encoding/base64`.

`crypto.KeyToBase64` / `crypto.KeyFromBase64` (internal/crypto) and the
data-key decoding in `pull.go` wrap Go's `base64.StdEncoding`. The Go
standard library is external to the repository; the encoder below is the
standard algorithm: bytes are split into 6-bit groups, mapped through the
base64 alphabet, and padded with `=` (byte 61) to a multiple of four
characters. -/

/-- Splits a byte string into base64 sextet values (each below 64). -/
def sextets : ByteStr → List Nat
  | b1 :: b2 :: b3 :: rest =>
      b1 / 4 :: (b1 % 4 * 16 + b2 / 16) :: (b2 % 16 * 4 + b3 / 64) :: b3 % 64 :: sextets rest
  | [b1, b2] => [b1 / 4, b1 % 4 * 16 + b2 / 16, b2 % 16 * 4]
  | [b1] => [b1 / 4, b1 % 4 * 16]
  | [] => []

/-- Inverse of `sextets` on complete groups, consuming four sextets into
three bytes and handling the two shortened tail shapes. -/
def unsextets : List Nat → ByteStr
  | c1 :: c2 :: c3 :: c4 :: rest =>
      (c1 * 4 + c2 / 16) :: (c2 % 16 * 16 + c3 / 4) :: (c3 % 4 * 64 + c4) :: unsextets rest
  | [c1, c2, c3] => [c1 * 4 + c2 / 16, c2 % 16 * 16 + c3 / 4]
  | [c1, c2] => [c1 * 4 + c2 / 16]
  | _ => []

/-- The base64 alphabet as ASCII codes: `A`-`Z`, `a`-`z`, `0`-`9`, `+`, `/`. -/
def b64alphabet : List Nat :=
  (List.range 26).map (fun i => 65 + i) ++
  (List.range 26).map (fun i => 97 + i) ++
  (List.range 10).map (fun i => 48 + i) ++ [43, 47]

/-- Maps a sextet value to the ASCII code of its base64 character. -/
def b64char (n : Nat) : Nat := b64alphabet.getD n 65

/-- Maps an ASCII code back to its sextet value. -/
def b64inv (c : Nat) : Nat := (b64alphabet.indexOf c)

/-- The ASCII code of the base64 padding character `=`. -/
def b64pad : Nat := 61

/-- Number of padding characters for an input of byte length `n`. -/
def b64padCount (n : Nat) : Nat := (3 - n % 3) % 3

/-- Base64-encodes a byte string, producing the ASCII codes of
`base64.StdEncoding.EncodeToString`. -/
def base64Encode (bs : ByteStr) : ByteStr :=
  (sextets bs).map b64char ++ List.replicate (b64padCount bs.length) b64pad

/-- Character-level validity used by `base64Decode`. -/
def b64validChar (c : Nat) : Bool := b64alphabet.contains c

/-- The non-padding part of a base64 input. -/
def b64body (s : ByteStr) : ByteStr := s.takeWhile (fun c => c ≠ b64pad)

/-- The trailing padding part of a base64 input. -/
def b64tail (s : ByteStr) : ByteStr := s.drop (b64body s).length

/-- Base64-decodes a byte string of ASCII codes, failing on input that
`base64.StdEncoding.DecodeString` would reject. -/
def base64Decode (s : ByteStr) : Except String ByteStr :=
  if s.length % 4 = 0 ∧ (b64body s).all b64validChar ∧
      (b64tail s).all (fun c => c = b64pad) ∧ (b64tail s).length ≤ 2 then
    .ok (unsextets ((b64body s).map b64inv))
  else
    .error "illegal base64 data"

/-! ### Roundtrip and injectivity facts about the base64 model -/

/-! ## Envelope cipher (modelling the external `filippo.io/age` library)

Modelled from the spec: the authenticated-encryption envelope itself lives
in the external age library, not in this repository. Spec section 4.3
describes it as one opaque authenticated-encryption container: encryption
binds the passphrase-derived key material into the envelope, decryption
succeeds exactly for the matching key material, and failure is a single
opaque error whether the key is wrong or the ciphertext is corrupted. -/

/-- An age envelope sealed under scrypt key material derived from a
passphrase. `keyMaterial` stands for the scrypt recipient stanza. -/
structure AgeEnvelope where
  keyMaterial : ByteStr
  payload : ByteStr
deriving DecidableEq

/-- Usage statistics persisted in `usage.json` (internal/config). -/
structure UsageStats where
  freeRuns : Nat
  lastUpsell : Nat
  upsellShown : Bool
deriving DecidableEq

/-- Default usage statistics created when `usage.json` is missing. -/
def defaultUsage : UsageStats := ⟨0, 0, false⟩

/-- Contents of a file on disk. Serialized forms (the age envelope format,
the usage JSON document) are opaque byte strings in Go; they are modelled
as separate constructors, which keeps the serializations injective and
distinct from plain byte strings. -/
inductive FileData where
  | raw : ByteStr → FileData
  | env : AgeEnvelope → FileData
  | usage : UsageStats → FileData
deriving DecidableEq

/-- Seals data under a passphrase (the scrypt recipient path of age). -/
def ageEncrypt (pass : ByteStr) (data : ByteStr) : AgeEnvelope := ⟨pass, data⟩

/-- Opens an envelope with a passphrase-derived identity. Anything that is
not an age envelope, or an envelope sealed under different key material,
fails with the same opaque `none`. -/
def ageDecrypt (pass : ByteStr) (d : FileData) : Option ByteStr :=
  match d with
  | .env e => if e.keyMaterial = pass then some e.payload else none
  | _ => none

/-! ## internal/crypto -/

/-- `crypto.KeyToBase64`: encodes a key with `base64.StdEncoding`. -/
def KeyToBase64 (key : ByteStr) : ByteStr := base64Encode key

/-- `crypto.KeyFromBase64`: decodes a base64 key and requires 32 bytes. -/
def KeyFromBase64 (s : ByteStr) : Except String ByteStr :=
  match base64Decode s with
  | .error e => .error e
  | .ok key => if key.length = 32 then .ok key else .error "key must be 32 bytes"

/-- `crypto.EncryptWithPassphrase`: age encryption under a passphrase. -/
def EncryptWithPassphrase (data : ByteStr) (passphrase : ByteStr) : FileData :=
  .env (ageEncrypt passphrase data)

/-- `crypto.DecryptWithPassphrase`: age decryption under a passphrase. -/
def DecryptWithPassphrase (encryptedData : FileData) (passphrase : ByteStr) :
    Except String ByteStr :=
  match ageDecrypt passphrase encryptedData with
  | some data => .ok data
  | none => .error "failed to create decrypt reader"

/-- `crypto.EncryptWithKey`: requires a 32-byte key, base64-encodes it and
runs the passphrase encryption path on the encoded key. -/
def EncryptWithKey (data : ByteStr) (key : ByteStr) : Except String FileData :=
  if key.length = 32 then
    .ok (.env (ageEncrypt (base64Encode key) data))
  else
    .error "key must be 32 bytes"

/-- `crypto.DecryptWithKey`: requires a 32-byte key, base64-encodes it and
runs the passphrase decryption path on the encoded key. -/
def DecryptWithKey (encryptedData : FileData) (key : ByteStr) : Except String ByteStr :=
  if key.length = 32 then
    match ageDecrypt (base64Encode key) encryptedData with
    | some data => .ok data
    | none => .error "failed to create decrypt reader"
  else
    .error "key must be 32 bytes"

/-! ## internal/config: project config, key store, usage stats -/

/-- `.secretsnap.json`, one per working directory. -/
structure ProjectConfig where
  projectName : String
  projectId : String
  mode : String
  bundlePath : String
deriving DecidableEq

/-- A cached project key as stored in `keys.json`. -/
structure ProjectKey where
  keyId : ByteStr
  algorithm : String
  keyB64 : ByteStr
  createdAt : Nat
deriving DecidableEq

/-- The `projects` mapping of the per-user keys cache document. -/
abbrev KeysMap := List (String × ProjectKey)

/-- Sets one entry of an association list, replacing an existing binding. -/
def setAssoc {β : Type} (m : List (String × β)) (name : String) (v : β) :
    List (String × β) :=
  match m with
  | [] => [(name, v)]
  | (n, w) :: rest =>
      if n = name then (n, v) :: rest else (n, w) :: setAssoc rest name v

/-- `config.GetProjectKey`: retrieves the cached key for a project. -/
def GetProjectKey (keys : KeysMap) (projectName : String) : Except String ProjectKey :=
  match keys.lookup projectName with
  | some key => .ok key
  | none => .error ("no key found for project " ++ projectName)

/-- `config.SaveProjectKey`: load the cache document, set one entry, write
it back (the temp-file-plus-rename of `SaveKeysConfig` is atomic, so its
net effect is this single update). -/
def SaveProjectKey (keys : KeysMap) (projectName : String) (key : ProjectKey) : KeysMap :=
  setAssoc keys projectName key

/-! ## Filesystem model -/

/-- A file with contents and permission bits. -/
structure FileEntry where
  data : FileData
  perm : Nat
deriving DecidableEq

/-- The filesystem: an association list from paths to entries. -/
abbrev FS := List (String × FileEntry)

/-- `os.WriteFile` semantics: truncate-and-write an existing file keeping
its permission bits, or create a fresh file with the requested permission
bits (the process umask is elided; the standard 022 umask does not affect
the modes 0600 and 0644 used here). -/
def writeFile (fs : FS) (path : String) (d : FileData) (perm : Nat) : FS :=
  match fs.lookup path with
  | some old => setAssoc fs path ⟨d, old.perm⟩
  | none => setAssoc fs path ⟨d, perm⟩

/-- Whether `len(data) == 0` holds for a file's bytes; envelope and usage
serializations are never empty. -/
def fileIsEmpty : FileData → Bool
  | .raw d => d.isEmpty
  | _ => false

/-- The plain bytes of a file; opaque serializations are not meaningful as
passphrases and yield the empty byte string. -/
def rawBytes : FileData → ByteStr
  | .raw d => d
  | _ => []

deriving instance DecidableEq for Except

/-- Location of the per-user `usage.json` document. -/
def usagePath : String := "~/.secretsnap/usage.json"

/-- `config.LoadUsageStats` as a pure read: a missing document reads as the
default (the Go code also writes the default back, which the subsequent
save overwrites), and a document that is not a usage JSON fails to parse. -/
def loadUsage (fs : FS) : Except String UsageStats :=
  match fs.lookup usagePath with
  | none => .ok defaultUsage
  | some e =>
      match e.data with
      | .usage s => .ok s
      | _ => .error "failed to parse usage file"

/-- `config.SaveUsageStats`: atomic temp-file-plus-rename write. -/
def saveUsage (fs : FS) (s : UsageStats) : FS :=
  writeFile fs usagePath (.usage s) 0o600

/-- `config.IncrementFreeRun`. -/
def IncrementFreeRun (fs : FS) : FS × Except String Unit :=
  match loadUsage fs with
  | .error e => (fs, .error e)
  | .ok s => (saveUsage fs { s with freeRuns := s.freeRuns + 1 }, .ok ())

/-- Twenty-four hours, the upsell rate limit of `config.ShouldShowUpsell`. -/
def oneDay : Nat := 86400

/-- `config.ShouldShowUpsell`. -/
def ShouldShowUpsell (fs : FS) (now : Nat) : Except String Bool :=
  match loadUsage fs with
  | .error e => .error e
  | .ok s => .ok (s.freeRuns ≥ 3 && !s.upsellShown && decide (now - s.lastUpsell > oneDay))

/-- `config.MarkUpsellShown`. -/
def MarkUpsellShown (fs : FS) (now : Nat) : FS × Except String Unit :=
  match loadUsage fs with
  | .error e => (fs, .error e)
  | .ok s => (saveUsage fs { s with upsellShown := true, lastUpsell := now }, .ok ())

/-- `utils.ShowContextualUpsell` and `utils.ShowFeatureUpsell` share this
state effect: a no-op for logged-in users, otherwise mark the upsell shown
when the rate limit allows; the printed marketing text is elided. -/
def upsellEffect (fs : FS) (token : ByteStr) (now : Nat) : FS × Except String Unit :=
  if token ≠ [] then (fs, .ok ())
  else
    match ShouldShowUpsell fs now with
    | .error e => (fs, .error e)
    | .ok false => (fs, .ok ())
    | .ok true => MarkUpsellShown fs now

/-- `utils.GetPassphrase`: flag value first, then the passphrase file with
one trailing newline stripped, else the interactive prompt. -/
def GetPassphrase (fs : FS) (pass : ByteStr) (passFile : String) (promptInput : ByteStr) :
    Except String ByteStr :=
  if pass ≠ [] then .ok pass
  else if passFile ≠ "" then
    match fs.lookup passFile with
    | none => .error "failed to read passphrase file"
    | some e =>
        let d := rawBytes e.data
        .ok (if d.getLast? = some 10 then d.dropLast else d)
  else .ok promptInput

/-! ## Mode resolvers (cmd/bundle.go, cmd/unbundle.go, cmd/run.go) -/

/-- `determineMode` from cmd/bundle.go. The `projectConfig` parameter is
accepted and ignored, exactly as in the source. -/
def determineMode (projectConfig : Option ProjectConfig) (pass : ByteStr)
    (passFile : String) (passMode push : Bool) : String :=
  if pass ≠ [] ∨ passFile ≠ "" ∨ passMode then "passphrase"
  else if push then "cloud"
  else "local"

/-- `determineUnbundleMode` from cmd/unbundle.go. -/
def determineUnbundleMode (pass : ByteStr) (passFile : String) : String :=
  if pass ≠ [] ∨ passFile ≠ "" then "passphrase" else "local"

/-- `determineRunMode` from cmd/run.go. -/
def determineRunMode (pass : ByteStr) (passFile : String) (passMode : Bool) : String :=
  if pass ≠ [] ∨ passFile ≠ "" ∨ passMode then "passphrase" else "local"

/-- Step 2 of the spec's decision table: a non-nil config with cloud mode
and a valid, non-sentinel project id. -/
def isCloudConfig : Option ProjectConfig → Bool
  | some c => c.mode = "cloud" && c.projectId ≠ "" && c.projectId ≠ "local"
  | none => false

/-- `resolveMode` as specified by the decision table of spec section 4.1,
stated in the spec's own order for comparison with `determineMode`. -/
def specResolveMode (config : Option ProjectConfig) (pass : ByteStr)
    (passFile : String) (passMode push : Bool) : String :=
  if push then "cloud"
  else if isCloudConfig config then "cloud"
  else if pass ≠ [] ∨ passFile ≠ "" ∨ passMode then "passphrase"
  else "local"

/-! ## cmd/unbundle.go -/

/-- Flags of the `unbundle` command. -/
structure UnbundleArgs where
  inputFile : String
  out : String
  pass : ByteStr
  passFile : String
  force : Bool

/-- The mode-dispatched decryption performed by `unbundle`: the passphrase
path through `utils.GetPassphrase` and `DecryptWithPassphrase`, or the
local path through the key cache and `DecryptWithKey`. -/
def unbundleDecrypt (fs : FS) (keys : KeysMap) (cfg : ProjectConfig)
    (a : UnbundleArgs) (promptInput : ByteStr) (d : FileData) : Except String ByteStr :=
  if determineUnbundleMode a.pass a.passFile = "passphrase" then
    match GetPassphrase fs a.pass a.passFile promptInput with
    | .error e => .error ("failed to get passphrase: " ++ e)
    | .ok passphrase =>
        match DecryptWithPassphrase d passphrase with
        | .error e => .error ("failed to decrypt: " ++ e)
        | .ok out => .ok out
  else
    match GetProjectKey keys cfg.projectName with
    | .error _ => .error ("no local project key found for " ++ cfg.projectName)
    | .ok projectKey =>
        match KeyFromBase64 projectKey.keyB64 with
        | .error e => .error ("failed to decode project key: " ++ e)
        | .ok keyBytes =>
            match DecryptWithKey d keyBytes with
            | .error e => .error ("failed to decrypt: " ++ e)
            | .ok out => .ok out

/-- The `unbundle` command: the project config is passed in already loaded
(`config.LoadProjectConfig`); `promptInput` stands for the interactive
passphrase prompt. Returns the resulting filesystem and the exit status. -/
def unbundleCmd (fs : FS) (keys : KeysMap) (cfg : ProjectConfig)
    (a : UnbundleArgs) (promptInput : ByteStr) : FS × Except String Unit :=
  match fs.lookup a.inputFile with
  | none => (fs, .error "input file does not exist")
  | some entry =>
    if fileIsEmpty entry.data then (fs, .error "input file is empty")
    else
      match unbundleDecrypt fs keys cfg a promptInput entry.data with
      | .error e => (fs, .error e)
      | .ok decryptedData =>
          if (fs.lookup a.out).isSome ∧ ¬a.force then
            (fs, .error ("refusing to overwrite " ++ a.out))
          else
            (writeFile fs a.out (.raw decryptedData) 0o600, .ok ())

/-! ## cmd/pull.go (the version carrying --version and --force) -/

/-- Flags of the `pull` command. -/
structure PullArgs where
  out : String
  project : String
  version : Nat
  force : Bool

/-- The long flag names registered by `pull`'s `init` function. -/
def pullCmdFlags : List String := ["out", "project", "version", "force"]

/-- A control-plane reply to `GET /v1/bundles/pull`. -/
structure BundlePullResponse where
  downloadURL : String
  dataKey : ByteStr
  version : Nat
deriving DecidableEq

/-- `api.Client.BundlePullVersion`: the query string sent to the
control-plane; version 0 requests `latest=true`. -/
def bundlePullQuery (projectID : String) (version : Nat) : String :=
  if version > 0 then
    "/v1/bundles/pull?project_id=" ++ projectID ++ "&version=" ++ toString version
  else
    "/v1/bundles/pull?project_id=" ++ projectID ++ "&latest=true"

/-- `api.Client.BundlePull`: always the `latest=true` request. -/
def bundlePullRequest (projectID : String) : String := bundlePullQuery projectID 0

/-- The `pull` command. The control-plane and the blob store are external
services, passed as the functions `server` (reply to a pull query string)
and `download` (blob fetched from a download URL); `token` is the stored
login token. Mirrors the source statement by statement; in particular the
`pullVersion` flag is registered but never read by the command body, so
the request sent is always `bundlePullRequest`. -/
def pullResolvedProject (a : PullArgs) (cfg : ProjectConfig) : String :=
  if a.project = "" then cfg.projectId else a.project

def pullCmd (fs : FS) (cfg : ProjectConfig) (token : ByteStr)
    (server : String → Except String BundlePullResponse)
    (download : String → Except String FileData)
    (a : PullArgs) (now : Nat) : FS × Except String Unit :=
  if token = [] then (fs, .error "not logged in") else
  if pullResolvedProject a cfg = "" then (fs, .error "no project specified") else
  match server (bundlePullRequest (pullResolvedProject a cfg)) with
  | .error e => (fs, .error ("failed to pull bundle: " ++ e))
  | .ok resp =>
    match download resp.downloadURL with
    | .error e => (fs, .error ("failed to download bundle: " ++ e))
    | .ok encryptedData =>
      match base64Decode resp.dataKey with
      | .error e => (fs, .error ("failed to decode data key: " ++ e))
      | .ok dataKey =>
        match DecryptWithKey encryptedData dataKey with
        | .error e => (fs, .error ("failed to decrypt bundle: " ++ e))
        | .ok decryptedData =>
          if (fs.lookup a.out).isSome ∧ ¬a.force then
            (fs, .error ("refusing to overwrite " ++ a.out))
          else
            ((upsellEffect (writeFile fs a.out (.raw decryptedData) 0o600) token now).1,
              .ok ())

/-! ## cmd/bundle.go -/

/-- Flags of the `bundle` command; `out` defaults to `secrets.envsnap`. -/
structure BundleArgs where
  inputFile : String
  out : String
  pass : ByteStr
  passFile : String
  passMode : Bool
  push : Bool
  project : String
  force : Bool

/-- A control-plane reply to `POST /v1/bundles/push`. -/
structure BundlePushResponse where
  uploadURL : String
  bundleId : String
  s3Key : String
deriving DecidableEq

/-- The `bundle` command. External effects are parameters: `dataKey` is the
fresh random key from `crypto.GenerateDataKey`, `pushResp` the ticket from
the control-plane, `upload` and `finalize` the outcomes of the blob upload
and of `POST /v1/bundles/finalize`. -/
def bundleResolvedProject (a : BundleArgs) (cfg : ProjectConfig) : String :=
  if a.project ≠ "" then a.project else cfg.projectId

def bundleCmd (fs : FS) (keys : KeysMap) (cfg : ProjectConfig) (token : ByteStr)
    (dataKey : ByteStr) (pushResp : Except String BundlePushResponse)
    (upload finalize : Except String Unit)
    (a : BundleArgs) (promptInput : ByteStr) (now : Nat) : FS × Except String Unit :=
  match fs.lookup a.inputFile with
  | none => (fs, .error "input file does not exist")
  | some entry =>
    if fileIsEmpty entry.data then (fs, .error "input file is empty")
    else
      if determineMode (some cfg) a.pass a.passFile a.passMode a.push = "passphrase" then
        match GetPassphrase fs a.pass a.passFile promptInput with
        | .error e => (fs, .error ("failed to get passphrase: " ++ e))
        | .ok passphrase =>
            if (fs.lookup a.out).isSome ∧ ¬a.force then
              (fs, .error ("refusing to overwrite " ++ a.out))
            else
              ((upsellEffect (IncrementFreeRun (writeFile fs a.out
                  (EncryptWithPassphrase (rawBytes entry.data) passphrase) 0o644)).1
                token now).1, .ok ())
      else if determineMode (some cfg) a.pass a.passFile a.passMode a.push = "cloud" then
        if ¬a.push then (fs, .error "cloud mode requires --push flag")
        else if token = [] then (fs, .error "cloud sync is Pro")
        else
          if bundleResolvedProject a cfg = "" ∨ bundleResolvedProject a cfg = "local" then
            (fs, .error "no project specified")
          else
            match EncryptWithKey (rawBytes entry.data) dataKey with
            | .error e => (fs, .error ("failed to encrypt: " ++ e))
            | .ok encryptedData =>
              match pushResp with
              | .error e => (fs, .error ("failed to get upload URL: " ++ e))
              | .ok _ =>
                match upload with
                | .error e => (fs, .error ("failed to upload to cloud: " ++ e))
                | .ok _ =>
                  match finalize with
                  | .error e => (fs, .error ("failed to finalize bundle: " ++ e))
                  | .ok _ =>
                    if a.out ≠ "secrets.envsnap" then
                      (writeFile fs a.out encryptedData 0o644, .ok ())
                    else
                      (fs, .ok ())
      else
        match GetProjectKey keys cfg.projectName with
        | .error _ => (fs, .error ("no local project key found for " ++ cfg.projectName))
        | .ok projectKey =>
            match KeyFromBase64 projectKey.keyB64 with
            | .error e => (fs, .error ("failed to decode project key: " ++ e))
            | .ok keyBytes =>
                match EncryptWithKey (rawBytes entry.data) keyBytes with
                | .error e => (fs, .error ("failed to encrypt: " ++ e))
                | .ok encryptedData =>
                    if (fs.lookup a.out).isSome ∧ ¬a.force then
                      (fs, .error ("refusing to overwrite " ++ a.out))
                    else
                      ((upsellEffect (IncrementFreeRun
                          (writeFile fs a.out encryptedData 0o644)).1 token now).1,
                        .ok ())

/-! ## cmd/run.go -/

/-- Flags and positional arguments of the `run` command. -/
structure RunArgs where
  bundleFile : String
  cmdArgs : List String
  pass : ByteStr
  passFile : String
  passMode : Bool

/-- The child process invocation performed by `run`. -/
structure ExecCall where
  argv : List String
  env : List ByteStr
deriving DecidableEq

/-- The complete outcome of a `run` invocation. -/
structure RunOutcome where
  fs : FS
  exec : Option ExecCall
  exit : Except String Unit

/-- Go whitespace bytes trimmed by `strings.TrimSpace`. -/
def isSpaceByte (b : Nat) : Bool :=
  b = 32 || b = 9 || b = 10 || b = 11 || b = 12 || b = 13

/-- `strings.TrimSpace` on a byte string. -/
def trimSpace (s : ByteStr) : ByteStr :=
  ((s.dropWhile isSpaceByte).reverse.dropWhile isSpaceByte).reverse

/-- `parseEnvFile` from cmd/run.go: split on newlines, trim, skip blanks
and `#` comments, keep lines containing `=` verbatim. -/
def parseEnvFile (data : ByteStr) : List ByteStr :=
  ((data.splitOn 10).map trimSpace).filter
    (fun line => line ≠ [] ∧ line.head? ≠ some 35 ∧ line.contains 61)

/-- The mode-dispatched decryption performed by `run`, mirroring the
switch in cmd/run.go. -/
def runDecrypt (fs : FS) (keys : KeysMap) (cfg : ProjectConfig)
    (a : RunArgs) (promptInput : ByteStr) (d : FileData) : Except String ByteStr :=
  if determineRunMode a.pass a.passFile a.passMode = "passphrase" then
    match GetPassphrase fs a.pass a.passFile promptInput with
    | .error e => .error ("failed to get passphrase: " ++ e)
    | .ok passphrase =>
        match DecryptWithPassphrase d passphrase with
        | .error e => .error ("failed to decrypt: " ++ e)
        | .ok out => .ok out
  else
    match GetProjectKey keys cfg.projectName with
    | .error _ => .error ("no local project key found for " ++ cfg.projectName)
    | .ok projectKey =>
        match KeyFromBase64 projectKey.keyB64 with
        | .error e => .error ("failed to decode project key: " ++ e)
        | .ok keyBytes =>
            match DecryptWithKey d keyBytes with
            | .error e => .error ("failed to decrypt: " ++ e)
            | .ok out => .ok out

/-- The `run` command. `inheritedEnv` is `os.Environ()`, `childOk` is
whether the child process exits successfully, `token` the stored login
token. No branch of the body writes the decrypted data or anything derived
from it to the filesystem; the only writes are the usage-statistics
updates of `IncrementFreeRun` and `upsellEffect`. -/
def runCmd (fs : FS) (keys : KeysMap) (cfg : ProjectConfig) (a : RunArgs)
    (promptInput : ByteStr) (inheritedEnv : List ByteStr) (childOk : Bool)
    (token : ByteStr) (now : Nat) : RunOutcome :=
  match fs.lookup a.bundleFile with
  | none => ⟨fs, none, .error "bundle file does not exist"⟩
  | some entry =>
    if fileIsEmpty entry.data then ⟨fs, none, .error "bundle file is empty"⟩
    else
      match runDecrypt fs keys cfg a promptInput entry.data with
      | .error e => ⟨fs, none, .error e⟩
      | .ok decryptedData =>
          if ¬childOk then
            ⟨fs, some ⟨a.cmdArgs, inheritedEnv ++ parseEnvFile decryptedData⟩,
              .error "command failed"⟩
          else
            ⟨(upsellEffect (IncrementFreeRun fs).1 token now).1,
              some ⟨a.cmdArgs, inheritedEnv ++ parseEnvFile decryptedData⟩, .ok ()⟩

/-! ## cmd/init.go (key-store effect) -/

/-- The `init` command restricted to its effect on the key cache document:
`newKey` and `newKeyId` are the outputs of `crypto.GenerateProjectKey` and
`crypto.GenerateKeyID`, `now` the creation timestamp. Returns the updated
cache and the key the command reports. -/
def initCmd (keys : KeysMap) (cfg : ProjectConfig) (newKey newKeyId : ByteStr)
    (now : Nat) : KeysMap × ProjectKey :=
  match GetProjectKey keys cfg.projectName with
  | .ok existingKey => (keys, existingKey)
  | .error _ =>
      let projectKey : ProjectKey := ⟨newKeyId, "age-symmetric-v1", KeyToBase64 newKey, now⟩
      (SaveProjectKey keys cfg.projectName projectKey, projectKey)

/-! ## MORE-DEFS-HERE -/

/-! # Theorems

Each claim is settled below; shared lemmas come first. -/

theorem sextets_lt (bs : ByteStr) (hwf : BytesWF bs) : ∀ c ∈ sextets bs, c < 64 := by
  induction bs using sextets.induct with
  | case1 b1 b2 b3 rest ih =>
      have h1 : b1 < 256 := hwf b1 (by simp)
      have h2 : b2 < 256 := hwf b2 (by simp)
      have h3 : b3 < 256 := hwf b3 (by simp)
      have hrest : BytesWF rest := fun b hb => hwf b (by simp [hb])
      intro c hc
      simp only [sextets, List.mem_cons] at hc
      rcases hc with h | h | h | h | h
      · omega
      · omega
      · omega
      · omega
      · exact ih hrest c h
  | case2 b1 b2 =>
      have h1 : b1 < 256 := hwf b1 (by simp)
      have h2 : b2 < 256 := hwf b2 (by simp)
      intro c hc
      simp only [sextets, List.mem_cons, List.not_mem_nil, or_false] at hc
      rcases hc with h | h | h
      all_goals omega
  | case3 b1 =>
      have h1 : b1 < 256 := hwf b1 (by simp)
      intro c hc
      simp only [sextets, List.mem_cons, List.not_mem_nil, or_false] at hc
      rcases hc with h | h
      all_goals omega
  | case4 => intro c hc; simp [sextets] at hc

theorem unsextets_sextets (bs : ByteStr) (hwf : BytesWF bs) :
    unsextets (sextets bs) = bs := by
  induction bs using sextets.induct with
  | case1 b1 b2 b3 rest ih =>
      have h1 : b1 < 256 := hwf b1 (by simp)
      have h2 : b2 < 256 := hwf b2 (by simp)
      have h3 : b3 < 256 := hwf b3 (by simp)
      have hrest : BytesWF rest := fun b hb => hwf b (by simp [hb])
      simp only [sextets, unsextets, ih hrest, List.cons.injEq, and_true]
      omega
  | case2 b1 b2 =>
      have h1 : b1 < 256 := hwf b1 (by simp)
      have h2 : b2 < 256 := hwf b2 (by simp)
      simp only [sextets, unsextets, List.cons.injEq, and_true]
      omega
  | case3 b1 =>
      have h1 : b1 < 256 := hwf b1 (by simp)
      simp only [sextets, unsextets, List.cons.injEq, and_true]
      omega
  | case4 => simp [sextets, unsextets]

theorem b64inv_b64char : ∀ c < 64, b64inv (b64char c) = c := by decide

theorem b64char_lt : ∀ c < 64, b64char c < 256 := by decide

theorem b64char_ne_pad : ∀ c < 64, b64char c ≠ b64pad := by decide

theorem b64char_valid : ∀ c < 64, b64validChar (b64char c) = true := by decide

theorem map_b64inv_map_b64char (cs : List Nat) (h : ∀ c ∈ cs, c < 64) :
    (cs.map b64char).map b64inv = cs := by
  induction cs with
  | nil => simp
  | cons c rest ih =>
      simp only [List.map_cons, List.cons.injEq]
      exact ⟨b64inv_b64char c (h c (by simp)),
             ih (fun x hx => h x (by simp [hx]))⟩

theorem takeWhile_append_eq {p : Nat → Bool} (xs ys : List Nat)
    (hxs : ∀ x ∈ xs, p x = true) (hys : ∀ y ∈ ys, p y = false) :
    (xs ++ ys).takeWhile p = xs := by
  induction xs with
  | nil =>
      cases ys with
      | nil => simp
      | cons y t =>
          simp only [List.nil_append, List.takeWhile]
          rw [hys y (by simp)]
  | cons x t ih =>
      have h1 : p x = true := hxs x (by simp)
      have h2 : (t ++ ys).takeWhile p = t := ih (fun a ha => hxs a (by simp [ha]))
      simp [List.takeWhile_cons, h1, h2]

theorem sextets_length (bs : ByteStr) :
    (sextets bs).length = bs.length / 3 * 4 +
      (if bs.length % 3 = 0 then 0 else bs.length % 3 + 1) := by
  induction bs using sextets.induct with
  | case1 b1 b2 b3 rest ih =>
      simp only [sextets, List.length_cons, ih]
      have h1 : (rest.length + 1 + 1 + 1) % 3 = rest.length % 3 := by omega
      have h2 : (rest.length + 1 + 1 + 1) / 3 = rest.length / 3 + 1 := by omega
      rw [h1, h2]
      split <;> omega
  | case2 b1 b2 => simp [sextets]
  | case3 b1 => simp [sextets]
  | case4 => simp [sextets]

theorem b64body_base64Encode (bs : ByteStr) (hwf : BytesWF bs) :
    b64body (base64Encode bs) = (sextets bs).map b64char := by
  have hlt := sextets_lt bs hwf
  unfold b64body base64Encode
  refine takeWhile_append_eq _ _ ?_ ?_
  · intro x hx
    rcases List.mem_map.mp hx with ⟨c, hc, rfl⟩
    simpa using b64char_ne_pad c (hlt c hc)
  · intro y hy
    have := List.eq_of_mem_replicate hy
    simp [this]

theorem b64tail_base64Encode (bs : ByteStr) (hwf : BytesWF bs) :
    b64tail (base64Encode bs) = List.replicate (b64padCount bs.length) b64pad := by
  unfold b64tail
  rw [b64body_base64Encode bs hwf]
  simp only [List.length_map]
  unfold base64Encode
  have : (sextets bs).length = ((sextets bs).map b64char).length := by simp
  rw [this, List.drop_left]

/-- Base64 decoding inverts base64 encoding on well-formed byte strings. -/
theorem base64Decode_base64Encode (bs : ByteStr) (hwf : BytesWF bs) :
    base64Decode (base64Encode bs) = .ok bs := by
  have hlt := sextets_lt bs hwf
  unfold base64Decode
  rw [b64body_base64Encode bs hwf, b64tail_base64Encode bs hwf]
  have hvalid : ((sextets bs).map b64char).all b64validChar = true := by
    rw [List.all_eq_true]
    intro x hx
    rcases List.mem_map.mp hx with ⟨c, hc, rfl⟩
    exact b64char_valid c (hlt c hc)
  have hpadall : (List.replicate (b64padCount bs.length) b64pad).all
      (fun c => decide (c = b64pad)) = true := by
    rw [List.all_eq_true]
    intro x hx
    have := List.eq_of_mem_replicate hx
    simp [this]
  have hpadlen : (List.replicate (b64padCount bs.length) b64pad).length ≤ 2 := by
    simp only [List.length_replicate]
    unfold b64padCount
    omega
  have hmod : (base64Encode bs).length % 4 = 0 := by
    unfold base64Encode
    simp only [List.length_append, List.length_map, List.length_replicate, sextets_length]
    unfold b64padCount
    split <;> omega
  rw [if_pos ⟨hmod, hvalid, ⟨hpadall, hpadlen⟩⟩]
  rw [map_b64inv_map_b64char _ hlt, unsextets_sextets bs hwf]

/-- Base64 encoding is injective on well-formed byte strings. -/
theorem base64Encode_injective (xs ys : ByteStr) (hx : BytesWF xs) (hy : BytesWF ys)
    (henc : base64Encode xs = base64Encode ys) : xs = ys := by
  have h1 := base64Decode_base64Encode xs hx
  have h2 := base64Decode_base64Encode ys hy
  rw [henc, h2] at h1
  exact Except.ok.inj h1.symm

theorem lookup_setAssoc_self {β : Type} (m : List (String × β)) (name : String) (v : β) :
    (setAssoc m name v).lookup name = some v := by
  induction m with
  | nil => simp [setAssoc, List.lookup]
  | cons hd t ih =>
      obtain ⟨n, w⟩ := hd
      by_cases h : n = name
      · subst h
        simp [setAssoc, List.lookup]
      · have hb : (name == n) = false := by
          simp [Ne.symm h]
        simp [setAssoc, h, List.lookup, hb, ih]

theorem lookup_setAssoc_ne {β : Type} (m : List (String × β)) (name q : String) (v : β)
    (h : q ≠ name) : (setAssoc m name v).lookup q = m.lookup q := by
  have hb : (q == name) = false := by simp [h]
  induction m with
  | nil => simp [setAssoc, List.lookup, hb]
  | cons hd t ih =>
      obtain ⟨n, w⟩ := hd
      by_cases hn : n = name
      · subst hn
        simp [setAssoc, List.lookup, hb]
      · simp only [setAssoc, if_neg hn, List.lookup, ih]

theorem lookup_writeFile_self (fs : FS) (p : String) (d : FileData) (perm : Nat) :
    (writeFile fs p d perm).lookup p =
      some ⟨d, match fs.lookup p with | some old => old.perm | none => perm⟩ := by
  unfold writeFile
  cases h : fs.lookup p <;> simp [lookup_setAssoc_self]

theorem lookup_writeFile_ne (fs : FS) (p q : String) (d : FileData) (perm : Nat)
    (h : q ≠ p) : (writeFile fs p d perm).lookup q = fs.lookup q := by
  unfold writeFile
  cases hp : fs.lookup p <;> simp [lookup_setAssoc_ne _ _ _ _ h]

theorem IncrementFreeRun_lookup_ne (fs : FS) (p : String) (h : p ≠ usagePath) :
    ((IncrementFreeRun fs).1).lookup p = fs.lookup p := by
  unfold IncrementFreeRun
  cases hl : loadUsage fs with
  | error e => rfl
  | ok s => simp [saveUsage, lookup_writeFile_ne _ _ _ _ _ h]

theorem upsellEffect_lookup_ne (fs : FS) (token : ByteStr) (now : Nat) (p : String)
    (h : p ≠ usagePath) :
    ((upsellEffect fs token now).1).lookup p = fs.lookup p := by
  unfold upsellEffect
  by_cases ht : token ≠ []
  · simp [ht]
  · simp only [ht, if_false, if_neg ht]
    cases hs : ShouldShowUpsell fs now with
    | error e => rfl
    | ok b =>
        cases b
        · rfl
        · unfold MarkUpsellShown
          cases hl : loadUsage fs with
          | error e => rfl
          | ok s => simp [saveUsage, lookup_writeFile_ne _ _ _ _ _ h]

theorem IncrementFreeRun_lookup_usage (fs : FS) :
    ((IncrementFreeRun fs).1).lookup usagePath = fs.lookup usagePath ∨
      ∃ s perm, ((IncrementFreeRun fs).1).lookup usagePath = some ⟨.usage s, perm⟩ := by
  unfold IncrementFreeRun
  cases hl : loadUsage fs with
  | error e => exact Or.inl rfl
  | ok s =>
      right
      exact ⟨_, _, lookup_writeFile_self fs usagePath
        (.usage { s with freeRuns := s.freeRuns + 1 }) 0o600⟩

theorem upsellEffect_lookup_usage (fs : FS) (token : ByteStr) (now : Nat) :
    ((upsellEffect fs token now).1).lookup usagePath = fs.lookup usagePath ∨
      ∃ s perm, ((upsellEffect fs token now).1).lookup usagePath = some ⟨.usage s, perm⟩ := by
  unfold upsellEffect
  by_cases ht : token ≠ []
  · simp [ht]
  · simp only [ht, if_false, if_neg ht]
    cases hs : ShouldShowUpsell fs now with
    | error e => exact Or.inl rfl
    | ok b =>
        cases b
        · exact Or.inl rfl
        · unfold MarkUpsellShown
          cases hl : loadUsage fs with
          | error e => exact Or.inl rfl
          | ok s =>
              right
              exact ⟨_, _, lookup_writeFile_self fs usagePath
                (.usage { s with upsellShown := true, lastUpsell := now }) 0o600⟩

/-- C1: the claim states that `determineMode` follows the spec 4.1 decision
table: push wins unconditionally, then a valid cloud config, then the
passphrase flags, else local. The code instead checks the passphrase flags
first and never consults the config at all, contradicting the repository's
own `TestDetermineMode` table; this theorem evaluates `determineMode` and
the spec table `specResolveMode` at two of the diverging inputs: a cloud
project with a passphrase flag and push set resolves to passphrase (tests
and spec expect cloud), and a cloud-configured project with no flags
resolves to local (tests and spec expect cloud). -/
theorem c1_determineMode_diverges_from_spec_table :
    determineMode (some ⟨"cloud-project", "proj-123", "cloud", "secrets.envsnap"⟩)
      [109, 121] "" false true = "passphrase" ∧
    specResolveMode (some ⟨"cloud-project", "proj-123", "cloud", "secrets.envsnap"⟩)
      [109, 121] "" false true = "cloud" ∧
    determineMode (some ⟨"cloud-project", "proj-123", "cloud", "secrets.envsnap"⟩)
      [] "" false false = "local" ∧
    specResolveMode (some ⟨"cloud-project", "proj-123", "cloud", "secrets.envsnap"⟩)
      [] "" false false = "cloud" := by
  refine ⟨by decide, by decide, by decide, by decide⟩

/-- C5: decrypting the result of encrypting data with the same key
material returns exactly the original bytes, both for the passphrase path
and for the raw-32-byte-key path. -/
theorem c5_encrypt_decrypt_roundtrip (data passphrase key : ByteStr)
    (hkey : key.length = 32) :
    DecryptWithPassphrase (EncryptWithPassphrase data passphrase) passphrase = .ok data ∧
    (EncryptWithKey data key).bind (fun ct => DecryptWithKey ct key) = .ok data := by
  constructor
  · simp [DecryptWithPassphrase, EncryptWithPassphrase, ageDecrypt, ageEncrypt]
  · simp [EncryptWithKey, DecryptWithKey, hkey, Except.bind, ageDecrypt, ageEncrypt]

theorem c5_encrypt_decrypt_roundtrip_witness :
    (List.replicate 32 7 : ByteStr).length = 32 ∧
    (DecryptWithPassphrase (EncryptWithPassphrase [70, 79, 79] [112, 49]) [112, 49] =
        .ok [70, 79, 79] ∧
      (EncryptWithKey [70, 79, 79] (List.replicate 32 7)).bind
        (fun ct => DecryptWithKey ct (List.replicate 32 7)) = .ok [70, 79, 79]) :=
  ⟨by decide, c5_encrypt_decrypt_roundtrip [70, 79, 79] [112, 49] (List.replicate 32 7)
    (by decide)⟩

/-- C9: the raw-key cipher path is the passphrase path applied to the
base64 encoding of the key: `EncryptWithKey` produces exactly the envelope
`EncryptWithPassphrase` produces for passphrase `KeyToBase64 key`, and the
resulting bundle decrypts under `DecryptWithPassphrase` with that base64
string as the passphrase. -/
theorem c9_raw_key_path_refines_passphrase_path (data key : ByteStr)
    (hkey : key.length = 32) :
    EncryptWithKey data key = .ok (EncryptWithPassphrase data (KeyToBase64 key)) ∧
    (EncryptWithKey data key).bind
      (fun ct => DecryptWithPassphrase ct (KeyToBase64 key)) = .ok data := by
  constructor
  · simp [EncryptWithKey, hkey, EncryptWithPassphrase, KeyToBase64]
  · simp [EncryptWithKey, hkey, Except.bind, DecryptWithPassphrase, ageDecrypt,
      ageEncrypt, KeyToBase64]

theorem c9_raw_key_path_refines_passphrase_path_witness :
    (List.replicate 32 9 : ByteStr).length = 32 ∧
    (EncryptWithKey [1, 2, 3] (List.replicate 32 9) =
        .ok (EncryptWithPassphrase [1, 2, 3] (KeyToBase64 (List.replicate 32 9))) ∧
      (EncryptWithKey [1, 2, 3] (List.replicate 32 9)).bind
        (fun ct => DecryptWithPassphrase ct (KeyToBase64 (List.replicate 32 9))) =
        .ok [1, 2, 3]) :=
  ⟨by decide, c9_raw_key_path_refines_passphrase_path [1, 2, 3] (List.replicate 32 9)
    (by decide)⟩

/-- C7: `init` is idempotent on the key store: a second `init` finds the
key saved by the first, returns it unchanged with no side effect on the
cache document, so both calls report identical `keyId` and `keyB64` and
the existing key is never regenerated or overwritten. -/
theorem c7_init_idempotent (keys : KeysMap) (cfg : ProjectConfig)
    (k1 id1 k2 id2 : ByteStr) (t1 t2 : Nat) :
    (initCmd (initCmd keys cfg k1 id1 t1).1 cfg k2 id2 t2).1 =
        (initCmd keys cfg k1 id1 t1).1 ∧
    (initCmd (initCmd keys cfg k1 id1 t1).1 cfg k2 id2 t2).2.keyId =
        (initCmd keys cfg k1 id1 t1).2.keyId ∧
    (initCmd (initCmd keys cfg k1 id1 t1).1 cfg k2 id2 t2).2.keyB64 =
        (initCmd keys cfg k1 id1 t1).2.keyB64 := by
  unfold initCmd GetProjectKey SaveProjectKey
  cases h : keys.lookup cfg.projectName with
  | some existing => simp [h]
  | none => simp [h, lookup_setAssoc_self]

/-- C6: decrypting under a key other than the one that encrypted fails
with the single opaque decryption error; the same opaque error is produced
for a byte string that is not a well-formed envelope (corrupted
ciphertext), so nothing distinguishes the two causes; and an `unbundle`
whose decryption fails exits nonzero with the filesystem unchanged, so no
partial plaintext and no output file is ever produced. -/
theorem c6_wrong_key_opaque_failure_no_output :
    (∀ data k1 k2 : ByteStr, BytesWF k1 → BytesWF k2 →
      k1.length = 32 → k2.length = 32 → k1 ≠ k2 →
      (EncryptWithKey data k1).bind (fun ct => DecryptWithKey ct k2) =
        .error "failed to create decrypt reader") ∧
    (∀ data p1 p2 : ByteStr, p1 ≠ p2 →
      DecryptWithPassphrase (EncryptWithPassphrase data p1) p2 =
        .error "failed to create decrypt reader") ∧
    (∀ (garbage key : ByteStr), key.length = 32 →
      DecryptWithKey (.raw garbage) key = .error "failed to create decrypt reader") ∧
    (∀ (fs : FS) (keys : KeysMap) (cfg : ProjectConfig) (a : UnbundleArgs)
      (promptInput data p1 : ByteStr) (perm : Nat),
      fs.lookup a.inputFile = some ⟨EncryptWithPassphrase data p1, perm⟩ →
      a.pass ≠ [] → a.pass ≠ p1 →
      (unbundleCmd fs keys cfg a promptInput).1 = fs ∧
        ∃ e, (unbundleCmd fs keys cfg a promptInput).2 = .error e) := by
  refine ⟨?_, ?_, ?_, ?_⟩
  · intro data k1 k2 h1 h2 hl1 hl2 hne
    have hb : base64Encode k1 ≠ base64Encode k2 :=
      fun h => hne (base64Encode_injective k1 k2 h1 h2 h)
    simp [EncryptWithKey, DecryptWithKey, hl1, hl2, Except.bind, ageDecrypt,
      ageEncrypt, hb]
  · intro data p1 p2 hne
    simp [DecryptWithPassphrase, EncryptWithPassphrase, ageDecrypt, ageEncrypt, hne]
  · intro garbage key hl
    simp [DecryptWithKey, hl, ageDecrypt]
  · intro fs keys cfg a promptInput data p1 perm hin hne hnp
    have hmode : determineUnbundleMode a.pass a.passFile = "passphrase" := by
      simp [determineUnbundleMode, hne]
    have hgp : GetPassphrase fs a.pass a.passFile promptInput = .ok a.pass := by
      simp [GetPassphrase, hne]
    have hdec : DecryptWithPassphrase (EncryptWithPassphrase data p1) a.pass =
        .error "failed to create decrypt reader" := by
      simp [DecryptWithPassphrase, EncryptWithPassphrase, ageDecrypt, ageEncrypt,
        Ne.symm hnp]
    have hrun : unbundleCmd fs keys cfg a promptInput =
        (fs, .error "failed to decrypt: failed to create decrypt reader") := by
      unfold unbundleCmd
      rw [hin]
      simp [fileIsEmpty, EncryptWithPassphrase, unbundleDecrypt, hmode, hgp,
        hdec, DecryptWithPassphrase, ageDecrypt, ageEncrypt, Ne.symm hnp]
    rw [hrun]
    exact ⟨rfl, _, rfl⟩

theorem c6_wrong_key_opaque_failure_no_output_witness :
    ((EncryptWithKey [5] (List.replicate 32 1)).bind
        (fun ct => DecryptWithKey ct (List.replicate 32 2)) =
      .error "failed to create decrypt reader") ∧
    (DecryptWithPassphrase (EncryptWithPassphrase [5] [112, 49]) [119] =
      .error "failed to create decrypt reader") ∧
    (DecryptWithKey (.raw [0, 1, 2]) (List.replicate 32 1) =
      .error "failed to create decrypt reader") ∧
    ((unbundleCmd [("b.envsnap", ⟨EncryptWithPassphrase [65] [112], 0o644⟩)] []
        ⟨"proj", "local", "local", "secrets.envsnap"⟩
        ⟨"b.envsnap", ".env", [113], "", false⟩ []).1 =
      [("b.envsnap", ⟨EncryptWithPassphrase [65] [112], 0o644⟩)] ∧
      ∃ e, (unbundleCmd [("b.envsnap", ⟨EncryptWithPassphrase [65] [112], 0o644⟩)] []
        ⟨"proj", "local", "local", "secrets.envsnap"⟩
        ⟨"b.envsnap", ".env", [113], "", false⟩ []).2 = .error e) :=
  ⟨c6_wrong_key_opaque_failure_no_output.1 [5] (List.replicate 32 1) (List.replicate 32 2)
      (by decide) (by decide) (by decide) (by decide) (by decide),
   c6_wrong_key_opaque_failure_no_output.2.1 [5] [112, 49] [119] (by decide),
   c6_wrong_key_opaque_failure_no_output.2.2.1 [0, 1, 2] (List.replicate 32 1) (by decide),
   c6_wrong_key_opaque_failure_no_output.2.2.2
     [("b.envsnap", ⟨EncryptWithPassphrase [65] [112], 0o644⟩)] []
     ⟨"proj", "local", "local", "secrets.envsnap"⟩
     ⟨"b.envsnap", ".env", [113], "", false⟩ [] [65] [112] 0o644
     (by decide) (by decide) (by decide)⟩

/-- C2: running `unbundle` or `pull` with an existing destination path and
without the force flag exits nonzero and leaves the filesystem — in
particular the destination's bytes — unchanged, on every input state. -/
theorem c2_no_overwrite_without_force
    (fs : FS) (keys : KeysMap) (cfg : ProjectConfig) (ua : UnbundleArgs)
    (promptInput token : ByteStr)
    (server : String → Except String BundlePullResponse)
    (download : String → Except String FileData) (pa : PullArgs) (now : Nat)
    (eu ep : FileEntry)
    (hu : fs.lookup ua.out = some eu) (huf : ua.force = false)
    (hp : fs.lookup pa.out = some ep) (hpf : pa.force = false) :
    ((unbundleCmd fs keys cfg ua promptInput).1 = fs ∧
      ∃ e, (unbundleCmd fs keys cfg ua promptInput).2 = .error e) ∧
    ((pullCmd fs cfg token server download pa now).1 = fs ∧
      ∃ e, (pullCmd fs cfg token server download pa now).2 = .error e) := by
  constructor
  · have hub : ∃ e, unbundleCmd fs keys cfg ua promptInput = (fs, .error e) := by
      unfold unbundleCmd
      cases hin : fs.lookup ua.inputFile with
      | none => exact ⟨_, rfl⟩
      | some entry =>
          dsimp only
          by_cases he : fileIsEmpty entry.data = true
          · rw [if_pos he]
            exact ⟨_, rfl⟩
          · rw [if_neg he]
            cases hd : unbundleDecrypt fs keys cfg ua promptInput entry.data with
            | error e => exact ⟨_, rfl⟩
            | ok d =>
                dsimp only
                rw [if_pos ⟨by simp [hu], by simp [huf]⟩]
                exact ⟨_, rfl⟩
    obtain ⟨e, he⟩ := hub
    rw [he]
    exact ⟨rfl, _, rfl⟩
  · have hpb : ∃ e, pullCmd fs cfg token server download pa now = (fs, .error e) := by
      unfold pullCmd
      by_cases ht : token = []
      · rw [if_pos ht]
        exact ⟨_, rfl⟩
      · rw [if_neg ht]
        by_cases hpr : pullResolvedProject pa cfg = ""
        · rw [if_pos hpr]
          exact ⟨_, rfl⟩
        · rw [if_neg hpr]
          cases hs : server (bundlePullRequest (pullResolvedProject pa cfg)) with
          | error e => exact ⟨_, rfl⟩
          | ok resp =>
              dsimp only
              cases hdl : download resp.downloadURL with
              | error e => exact ⟨_, rfl⟩
              | ok encryptedData =>
                  dsimp only
                  cases hdk : base64Decode resp.dataKey with
                  | error e => exact ⟨_, rfl⟩
                  | ok dataKey =>
                      dsimp only
                      cases hde : DecryptWithKey encryptedData dataKey with
                      | error e => exact ⟨_, rfl⟩
                      | ok decryptedData =>
                          dsimp only
                          rw [if_pos ⟨by simp [hp], by simp [hpf]⟩]
                          exact ⟨_, rfl⟩
    obtain ⟨e, he⟩ := hpb
    rw [he]
    exact ⟨rfl, _, rfl⟩

/-- C3: the claim states that `pull --version N` returns exactly version
N's bytes. The API client does support version-specific requests
(`bundlePullQuery` with a positive version), but the command body never
reads the registered `version` flag and always issues the `latest=true`
request: the outcome of `pullCmd` is identical for every value of the
version flag, and a concrete project holding versions 1 and 2 returns
version 2's bytes when version 1 is requested. -/
theorem c3_pull_version_flag_ignored :
    (∀ (fs : FS) (cfg : ProjectConfig) (token : ByteStr)
      (server : String → Except String BundlePullResponse)
      (download : String → Except String FileData)
      (out project : String) (v w : Nat) (force : Bool) (now : Nat),
      pullCmd fs cfg token server download ⟨out, project, v, force⟩ now =
        pullCmd fs cfg token server download ⟨out, project, w, force⟩ now) ∧
    "version" ∈ pullCmdFlags ∧
    (∀ projectID, bundlePullRequest projectID = bundlePullQuery projectID 0) ∧
    (pullCmd [] ⟨"p", "proj-1", "cloud", "s"⟩ [116]
      (fun q =>
        if q = "/v1/bundles/pull?project_id=proj-1&latest=true" then
          .ok ⟨"u2", KeyToBase64 (List.replicate 32 3), 2⟩
        else if q = "/v1/bundles/pull?project_id=proj-1&version=1" then
          .ok ⟨"u1", KeyToBase64 (List.replicate 32 3), 1⟩
        else .error "not found")
      (fun u =>
        if u = "u2" then
          .ok (.env (ageEncrypt (base64Encode (List.replicate 32 3)) [70, 79, 79, 33]))
        else if u = "u1" then
          .ok (.env (ageEncrypt (base64Encode (List.replicate 32 3)) [70, 79, 79]))
        else .error "object not found")
      ⟨".env.v1", "", 1, false⟩ 0 =
      ([(".env.v1", ⟨.raw [70, 79, 79, 33], 0o600⟩)], .ok ())) := by
  refine ⟨?_, by decide, fun projectID => rfl, by decide⟩
  intro fs cfg token server download out project v w force now
  rfl

/-- C4: the `run` command writes no plaintext to disk: outside the usage
statistics document the filesystem is untouched, the usage path holds
nothing but a usage-statistics document (never raw bytes and never the
decrypted bundle), and the decrypted variables reach only the child
process's environment block. -/
theorem c4_run_no_plaintext_on_disk (fs : FS) (keys : KeysMap) (cfg : ProjectConfig)
    (a : RunArgs) (promptInput : ByteStr) (inheritedEnv : List ByteStr)
    (childOk : Bool) (token : ByteStr) (now : Nat) :
    (∀ p, p ≠ usagePath →
      (runCmd fs keys cfg a promptInput inheritedEnv childOk token now).fs.lookup p =
        fs.lookup p) ∧
    ((runCmd fs keys cfg a promptInput inheritedEnv childOk token now).fs.lookup usagePath =
        fs.lookup usagePath ∨
      ∃ s perm,
        (runCmd fs keys cfg a promptInput inheritedEnv childOk token now).fs.lookup usagePath =
          some ⟨.usage s, perm⟩) ∧
    (∀ call,
      (runCmd fs keys cfg a promptInput inheritedEnv childOk token now).exec = some call →
      call.argv = a.cmdArgs ∧ ∃ d, call.env = inheritedEnv ++ parseEnvFile d) := by
  unfold runCmd
  cases hin : fs.lookup a.bundleFile with
  | none => exact ⟨fun p _ => rfl, Or.inl rfl, fun call h => by cases h⟩
  | some entry =>
      dsimp only
      by_cases he : fileIsEmpty entry.data = true
      · rw [if_pos he]
        exact ⟨fun p _ => rfl, Or.inl rfl, fun call h => by cases h⟩
      · rw [if_neg he]
        cases hd : runDecrypt fs keys cfg a promptInput entry.data with
        | error e => exact ⟨fun p _ => rfl, Or.inl rfl, fun call h => by cases h⟩
        | ok decryptedData =>
            dsimp only
            cases childOk with
            | false =>
                rw [if_pos (by simp : ¬(false = true))]
                exact ⟨fun p _ => rfl, Or.inl rfl, fun call h => by
                  cases h
                  exact ⟨rfl, decryptedData, rfl⟩⟩
            | true =>
                rw [if_neg (by simp : ¬¬(true = true))]
                refine ⟨?_, ?_, ?_⟩
                · intro p hp
                  rw [upsellEffect_lookup_ne _ _ _ _ hp, IncrementFreeRun_lookup_ne _ _ hp]
                · rcases upsellEffect_lookup_usage (IncrementFreeRun fs).1 token now with h | h
                  · rw [h]
                    exact IncrementFreeRun_lookup_usage fs
                  · exact Or.inr h
                · intro call h
                  cases h
                  exact ⟨rfl, decryptedData, rfl⟩

theorem c4_run_no_plaintext_on_disk_witness :
    ((runCmd [("b", ⟨EncryptWithPassphrase [70, 79, 79, 61, 98, 97, 114] [112], 0o644⟩)]
        [] ⟨"p", "local", "local", "s"⟩ ⟨"b", ["echo"], [112], "", false⟩ [] [] true
        [116] 0).fs.lookup ".env" =
      (([("b", ⟨EncryptWithPassphrase [70, 79, 79, 61, 98, 97, 114] [112], 0o644⟩)] : FS).lookup
        ".env")) ∧
    (⟨["echo"], [] ++ parseEnvFile [70, 79, 79, 61, 98, 97, 114]⟩ : ExecCall).argv = ["echo"] ∧
    ∃ d, (⟨["echo"], [] ++ parseEnvFile [70, 79, 79, 61, 98, 97, 114]⟩ : ExecCall).env =
      [] ++ parseEnvFile d :=
  ⟨(c4_run_no_plaintext_on_disk
      [("b", ⟨EncryptWithPassphrase [70, 79, 79, 61, 98, 97, 114] [112], 0o644⟩)]
      [] ⟨"p", "local", "local", "s"⟩ ⟨"b", ["echo"], [112], "", false⟩ [] [] true
      [116] 0).1 ".env" (by decide),
   (c4_run_no_plaintext_on_disk
      [("b", ⟨EncryptWithPassphrase [70, 79, 79, 61, 98, 97, 114] [112], 0o644⟩)]
      [] ⟨"p", "local", "local", "s"⟩ ⟨"b", ["echo"], [112], "", false⟩ [] [] true
      [116] 0).2.2 ⟨["echo"], [] ++ parseEnvFile [70, 79, 79, 61, 98, 97, 114]⟩ (by decide)⟩

theorem c2_no_overwrite_without_force_witness :
    ((unbundleCmd [(".env", ⟨.raw [66], 0o644⟩)] [] ⟨"p", "local", "local", "s"⟩
        ⟨"missing", ".env", [], "", false⟩ []).1 = [(".env", ⟨.raw [66], 0o644⟩)] ∧
      ∃ e, (unbundleCmd [(".env", ⟨.raw [66], 0o644⟩)] [] ⟨"p", "local", "local", "s"⟩
        ⟨"missing", ".env", [], "", false⟩ []).2 = .error e) ∧
    ((pullCmd [(".env", ⟨.raw [66], 0o644⟩)] ⟨"p", "local", "local", "s"⟩ [116]
        (fun _ => .error "offline") (fun _ => .error "offline")
        ⟨".env", "", 0, false⟩ 0).1 = [(".env", ⟨.raw [66], 0o644⟩)] ∧
      ∃ e, (pullCmd [(".env", ⟨.raw [66], 0o644⟩)] ⟨"p", "local", "local", "s"⟩ [116]
        (fun _ => .error "offline") (fun _ => .error "offline")
        ⟨".env", "", 0, false⟩ 0).2 = .error e) :=
  c2_no_overwrite_without_force [(".env", ⟨.raw [66], 0o644⟩)] []
    ⟨"p", "local", "local", "s"⟩ ⟨"missing", ".env", [], "", false⟩ [] [116]
    (fun _ => .error "offline") (fun _ => .error "offline") ⟨".env", "", 0, false⟩ 0
    ⟨.raw [66], 0o644⟩ ⟨.raw [66], 0o644⟩ (by decide) (by decide) (by decide) (by decide)

/-- C8 counterexample: the claim states that every successful `unbundle`
or `pull` leaves the plaintext output with permission bits 0600. The write
call requests mode 0600, but `os.WriteFile` applies the mode only when it
creates the file: overwriting an existing destination (here with `--force`)
keeps the old bits. Concretely, unbundling onto an existing 0644 `.env`
succeeds and leaves the decrypted plaintext world-readable at 0644 — the
case the source itself detects and merely warns about. -/
theorem c8_counterexample_overwrite_keeps_old_permissions :
    (unbundleCmd
        [("b", ⟨EncryptWithPassphrase [70] [112], 0o644⟩), (".env", ⟨.raw [66], 0o644⟩)]
        [] ⟨"p", "local", "local", "s"⟩ ⟨"b", ".env", [112], "", true⟩ []).2 = .ok () ∧
    (unbundleCmd
        [("b", ⟨EncryptWithPassphrase [70] [112], 0o644⟩), (".env", ⟨.raw [66], 0o644⟩)]
        [] ⟨"p", "local", "local", "s"⟩ ⟨"b", ".env", [112], "", true⟩ []).1.lookup ".env" =
      some ⟨.raw [70], 0o644⟩ ∧ (0o644 : Nat) ≠ 0o600 := by
  refine ⟨by decide, by decide, by decide⟩

/-- The permission bits a path holds after a write that requested
`requested` bits: a pre-existing file keeps its old bits. -/
def permAfterWrite (fs : FS) (p : String) (requested : Nat) : Nat :=
  match fs.lookup p with
  | some old => old.perm
  | none => requested

/-- C8 as amended: every successful `unbundle` or `pull` performs its
plaintext write requesting mode 0600, so a newly created output file gets
owner-only bits 0600; a pre-existing destination (overwritten with
`--force` on unbundle, and on pull) retains its prior permission bits, the
commands only warning when those are not 0600. -/
theorem c8_amended_plaintext_writes_request_0600
    (fs : FS) (keys : KeysMap) (cfg : ProjectConfig) (ua : UnbundleArgs)
    (promptInput token : ByteStr)
    (server : String → Except String BundlePullResponse)
    (download : String → Except String FileData) (pa : PullArgs) (now : Nat)
    (hout : pa.out ≠ usagePath) :
    ((unbundleCmd fs keys cfg ua promptInput).2 = .ok () →
      ∃ d, (unbundleCmd fs keys cfg ua promptInput).1.lookup ua.out =
        some ⟨.raw d, permAfterWrite fs ua.out 0o600⟩) ∧
    ((pullCmd fs cfg token server download pa now).2 = .ok () →
      ∃ d, (pullCmd fs cfg token server download pa now).1.lookup pa.out =
        some ⟨.raw d, permAfterWrite fs pa.out 0o600⟩) := by
  constructor
  · intro hok
    revert hok
    unfold unbundleCmd
    cases hin : fs.lookup ua.inputFile with
    | none => intro hok; cases hok
    | some entry =>
        dsimp only
        by_cases he : fileIsEmpty entry.data = true
        · rw [if_pos he]
          intro hok
          cases hok
        · rw [if_neg he]
          cases hd : unbundleDecrypt fs keys cfg ua promptInput entry.data with
          | error e => intro hok; cases hok
          | ok d =>
              dsimp only
              by_cases hov : (fs.lookup ua.out).isSome = true ∧ ¬ua.force = true
              · rw [if_pos hov]
                intro hok
                cases hok
              · rw [if_neg hov]
                intro _
                exact ⟨d, by
                  rw [lookup_writeFile_self]
                  rfl⟩
  · intro hok
    revert hok
    unfold pullCmd
    by_cases ht : token = []
    · rw [if_pos ht]
      intro hok
      cases hok
    · rw [if_neg ht]
      by_cases hpr : pullResolvedProject pa cfg = ""
      · rw [if_pos hpr]
        intro hok
        cases hok
      · rw [if_neg hpr]
        cases hs : server (bundlePullRequest (pullResolvedProject pa cfg)) with
        | error e => intro hok; cases hok
        | ok resp =>
            dsimp only
            cases hdl : download resp.downloadURL with
            | error e => intro hok; cases hok
            | ok encryptedData =>
                dsimp only
                cases hdk : base64Decode resp.dataKey with
                | error e => intro hok; cases hok
                | ok dataKey =>
                    dsimp only
                    cases hde : DecryptWithKey encryptedData dataKey with
                    | error e => intro hok; cases hok
                    | ok decryptedData =>
                        dsimp only
                        by_cases hov : (fs.lookup pa.out).isSome = true ∧ ¬pa.force = true
                        · rw [if_pos hov]
                          intro hok
                          cases hok
                        · rw [if_neg hov]
                          intro _
                          refine ⟨decryptedData, ?_⟩
                          rw [upsellEffect_lookup_ne _ _ _ _ hout, lookup_writeFile_self]
                          rfl

theorem c8_amended_plaintext_writes_request_0600_witness :
    (∃ d, (unbundleCmd [("b", ⟨EncryptWithPassphrase [70] [112], 0o644⟩)] []
      ⟨"p", "local", "local", "s"⟩ ⟨"b", ".env", [112], "", false⟩ []).1.lookup ".env" =
        some ⟨.raw d,
          permAfterWrite [("b", ⟨EncryptWithPassphrase [70] [112], 0o644⟩)] ".env" 0o600⟩) ∧
    (∃ d, (pullCmd [("b", ⟨EncryptWithPassphrase [70] [112], 0o644⟩)]
      ⟨"p", "proj-1", "cloud", "s"⟩ [116]
      (fun _ => .ok ⟨"u1", KeyToBase64 (List.replicate 32 3), 1⟩)
      (fun _ => .ok (.env (ageEncrypt (base64Encode (List.replicate 32 3)) [70, 79])))
      ⟨".env2", "", 0, false⟩ 0).1.lookup ".env2" =
        some ⟨.raw d,
          permAfterWrite [("b", ⟨EncryptWithPassphrase [70] [112], 0o644⟩)] ".env2" 0o600⟩) :=
  ⟨(c8_amended_plaintext_writes_request_0600
      [("b", ⟨EncryptWithPassphrase [70] [112], 0o644⟩)] []
      ⟨"p", "local", "local", "s"⟩ ⟨"b", ".env", [112], "", false⟩ [] [116]
      (fun _ => .ok ⟨"u1", KeyToBase64 (List.replicate 32 3), 1⟩)
      (fun _ => .ok (.env (ageEncrypt (base64Encode (List.replicate 32 3)) [70, 79])))
      ⟨".env2", "", 0, false⟩ 0 (by decide)).1 (by decide),
   (c8_amended_plaintext_writes_request_0600
      [("b", ⟨EncryptWithPassphrase [70] [112], 0o644⟩)] []
      ⟨"p", "local", "local", "s"⟩ ⟨"b", ".env", [112], "", false⟩ [] [116]
      (fun _ => .ok ⟨"u1", KeyToBase64 (List.replicate 32 3), 1⟩)
      (fun _ => .ok (.env (ageEncrypt (base64Encode (List.replicate 32 3)) [70, 79])))
      ⟨".env2", "", 0, false⟩ 0 (by decide)).2 (by decide)⟩

/-- C10: on the cloud path (`--push`, no passphrase flags), once the push
protocol succeeds and `--out` differs from the default `secrets.envsnap`,
the local ciphertext copy is written unconditionally — an existing file at
the path is replaced even without `--force` — whereas the same command on
the local path and on the passphrase path (any of the passphrase flags
set) refuses to overwrite an existing output without `--force` and leaves
the filesystem unchanged. -/
theorem c10_cloud_local_copy_bypasses_force :
    (∀ (fs : FS) (keys : KeysMap) (cfg : ProjectConfig)
      (token dataKey : ByteStr) (r : BundlePushResponse) (a : BundleArgs)
      (promptInput : ByteStr) (now : Nat) (entry : FileEntry),
      fs.lookup a.inputFile = some entry → fileIsEmpty entry.data = false →
      a.pass = [] → a.passFile = "" → a.passMode = false → a.push = true →
      token ≠ [] → dataKey.length = 32 →
      bundleResolvedProject a cfg ≠ "" → bundleResolvedProject a cfg ≠ "local" →
      a.out ≠ "secrets.envsnap" →
      bundleCmd fs keys cfg token dataKey (.ok r) (.ok ()) (.ok ()) a promptInput now =
        (writeFile fs a.out
          (.env (ageEncrypt (base64Encode dataKey) (rawBytes entry.data))) 0o644,
          .ok ())) ∧
    (∀ (fs : FS) (keys : KeysMap) (cfg : ProjectConfig)
      (token dataKey : ByteStr) (pushResp : Except String BundlePushResponse)
      (upload finalize : Except String Unit) (a : BundleArgs)
      (promptInput : ByteStr) (now : Nat) (eout : FileEntry),
      a.pass = [] → a.passFile = "" → a.passMode = false → a.push = false →
      fs.lookup a.out = some eout → a.force = false →
      (bundleCmd fs keys cfg token dataKey pushResp upload finalize a promptInput now).1 =
        fs ∧
      ∃ e, (bundleCmd fs keys cfg token dataKey pushResp upload finalize
        a promptInput now).2 = .error e) ∧
    (∀ (fs : FS) (keys : KeysMap) (cfg : ProjectConfig)
      (token dataKey : ByteStr) (pushResp : Except String BundlePushResponse)
      (upload finalize : Except String Unit) (a : BundleArgs)
      (promptInput : ByteStr) (now : Nat) (eout : FileEntry),
      (a.pass ≠ [] ∨ a.passFile ≠ "" ∨ a.passMode = true) →
      fs.lookup a.out = some eout → a.force = false →
      (bundleCmd fs keys cfg token dataKey pushResp upload finalize a promptInput now).1 =
        fs ∧
      ∃ e, (bundleCmd fs keys cfg token dataKey pushResp upload finalize
        a promptInput now).2 = .error e) := by
  refine ⟨?_, ?_, ?_⟩
  · intro fs keys cfg token dataKey r a promptInput now entry hin hne hp hpf hpm hpush
      htok hdk hpr1 hpr2 hout
    obtain ⟨ain, aout, apass, apassfile, apassmode, apush, aproj, aforce⟩ := a
    dsimp only at hp hpf hpm hpush hout hpr1 hpr2 hin ⊢
    subst hp hpf hpm hpush
    unfold bundleCmd
    rw [hin]
    dsimp only
    rw [if_neg (by simp [hne] : ¬fileIsEmpty entry.data = true)]
    have hm : determineMode (some cfg) [] "" false true = "cloud" := rfl
    rw [if_neg (fun h => absurd (hm.symm.trans h)
      (by decide : ¬("cloud" : String) = "passphrase"))]
    rw [if_pos hm]
    rw [if_neg (by simp : ¬¬(true = true))]
    rw [if_neg htok]
    rw [if_neg (by simp [hpr1, hpr2] :
      ¬(bundleResolvedProject ⟨ain, aout, [], "", false, true, aproj, aforce⟩ cfg = "" ∨
        bundleResolvedProject ⟨ain, aout, [], "", false, true, aproj, aforce⟩ cfg = "local"))]
    simp only [EncryptWithKey, if_pos hdk]
    rw [if_pos hout]
  · intro fs keys cfg token dataKey pushResp upload finalize a promptInput now eout
      hp hpf hpm hpush hexists hforce
    obtain ⟨ain, aout, apass, apassfile, apassmode, apush, aproj, aforce⟩ := a
    dsimp only at hp hpf hpm hpush hexists hforce ⊢
    subst hp hpf hpm hpush hforce
    have hb : ∃ e, bundleCmd fs keys cfg token dataKey pushResp upload finalize
        ⟨ain, aout, [], "", false, false, aproj, false⟩ promptInput now =
        (fs, .error e) := by
      unfold bundleCmd
      cases hin : fs.lookup ain with
      | none => exact ⟨_, rfl⟩
      | some entry =>
          dsimp only
          by_cases he : fileIsEmpty entry.data = true
          · rw [if_pos he]
            exact ⟨_, rfl⟩
          · rw [if_neg he]
            have hm : determineMode (some cfg) [] "" false false = "local" := rfl
            rw [if_neg (fun h => absurd (hm.symm.trans h)
              (by decide : ¬("local" : String) = "passphrase"))]
            rw [if_neg (fun h => absurd (hm.symm.trans h)
              (by decide : ¬("local" : String) = "cloud"))]
            cases hk : GetProjectKey keys cfg.projectName with
            | error e => exact ⟨_, rfl⟩
            | ok projectKey =>
                dsimp only
                cases hkb : KeyFromBase64 projectKey.keyB64 with
                | error e => exact ⟨_, rfl⟩
                | ok keyBytes =>
                    dsimp only
                    cases henc : EncryptWithKey (rawBytes entry.data) keyBytes with
                    | error e => exact ⟨_, rfl⟩
                    | ok encryptedData =>
                        dsimp only
                        rw [if_pos ⟨by simp [hexists], by simp⟩]
                        exact ⟨_, rfl⟩
    obtain ⟨e, he⟩ := hb
    rw [he]
    exact ⟨rfl, _, rfl⟩
  · intro fs keys cfg token dataKey pushResp upload finalize a promptInput now eout
      hpass hexists hforce
    have hm : determineMode (some cfg) a.pass a.passFile a.passMode a.push =
        "passphrase" := by
      unfold determineMode
      rw [if_pos hpass]
    have hb : ∃ e, bundleCmd fs keys cfg token dataKey pushResp upload finalize
        a promptInput now = (fs, .error e) := by
      unfold bundleCmd
      cases hin : fs.lookup a.inputFile with
      | none => exact ⟨_, rfl⟩
      | some entry =>
          dsimp only
          by_cases he : fileIsEmpty entry.data = true
          · rw [if_pos he]
            exact ⟨_, rfl⟩
          · rw [if_neg he]
            rw [if_pos hm]
            cases hgp : GetPassphrase fs a.pass a.passFile promptInput with
            | error e => exact ⟨_, rfl⟩
            | ok passphrase =>
                dsimp only
                rw [if_pos ⟨by simp [hexists], by simp [hforce]⟩]
                exact ⟨_, rfl⟩
    obtain ⟨e, he⟩ := hb
    rw [he]
    exact ⟨rfl, _, rfl⟩

theorem c10_cloud_local_copy_bypasses_force_witness :
    (bundleCmd [("in.env", ⟨.raw [70], 0o600⟩), ("out.snap", ⟨.raw [1], 0o644⟩)] []
        ⟨"p", "proj-1", "cloud", "s"⟩ [116] (List.replicate 32 4) (.ok ⟨"u", "b", "k"⟩)
        (.ok ()) (.ok ()) ⟨"in.env", "out.snap", [], "", false, true, "", false⟩ [] 0 =
      (writeFile [("in.env", ⟨.raw [70], 0o600⟩), ("out.snap", ⟨.raw [1], 0o644⟩)]
        "out.snap" (.env (ageEncrypt (base64Encode (List.replicate 32 4)) [70])) 0o644,
        .ok ())) ∧
    ((bundleCmd [("in.env", ⟨.raw [70], 0o600⟩), ("out.snap", ⟨.raw [1], 0o644⟩)] []
        ⟨"p", "proj-1", "cloud", "s"⟩ [116] (List.replicate 32 4) (.ok ⟨"u", "b", "k"⟩)
        (.ok ()) (.ok ()) ⟨"in.env", "out.snap", [], "", false, false, "", false⟩ [] 0).1 =
      [("in.env", ⟨.raw [70], 0o600⟩), ("out.snap", ⟨.raw [1], 0o644⟩)] ∧
      ∃ e, (bundleCmd [("in.env", ⟨.raw [70], 0o600⟩), ("out.snap", ⟨.raw [1], 0o644⟩)] []
        ⟨"p", "proj-1", "cloud", "s"⟩ [116] (List.replicate 32 4) (.ok ⟨"u", "b", "k"⟩)
        (.ok ()) (.ok ()) ⟨"in.env", "out.snap", [], "", false, false, "", false⟩ [] 0).2 =
        .error e) ∧
    ((bundleCmd [("in.env", ⟨.raw [70], 0o600⟩), ("out.snap", ⟨.raw [1], 0o644⟩)] []
        ⟨"p", "proj-1", "cloud", "s"⟩ [116] (List.replicate 32 4) (.ok ⟨"u", "b", "k"⟩)
        (.ok ()) (.ok ()) ⟨"in.env", "out.snap", [112], "", false, false, "", false⟩ [] 0).1 =
      [("in.env", ⟨.raw [70], 0o600⟩), ("out.snap", ⟨.raw [1], 0o644⟩)] ∧
      ∃ e, (bundleCmd [("in.env", ⟨.raw [70], 0o600⟩), ("out.snap", ⟨.raw [1], 0o644⟩)] []
        ⟨"p", "proj-1", "cloud", "s"⟩ [116] (List.replicate 32 4) (.ok ⟨"u", "b", "k"⟩)
        (.ok ()) (.ok ()) ⟨"in.env", "out.snap", [112], "", false, false, "", false⟩ [] 0).2 =
        .error e) :=
  ⟨c10_cloud_local_copy_bypasses_force.1
      [("in.env", ⟨.raw [70], 0o600⟩), ("out.snap", ⟨.raw [1], 0o644⟩)] []
      ⟨"p", "proj-1", "cloud", "s"⟩ [116] (List.replicate 32 4) ⟨"u", "b", "k"⟩
      ⟨"in.env", "out.snap", [], "", false, true, "", false⟩ [] 0 ⟨.raw [70], 0o600⟩
      (by decide) (by decide) (by decide) (by decide) (by decide) (by decide)
      (by decide) (by decide) (by decide) (by decide) (by decide),
   c10_cloud_local_copy_bypasses_force.2.1
      [("in.env", ⟨.raw [70], 0o600⟩), ("out.snap", ⟨.raw [1], 0o644⟩)] []
      ⟨"p", "proj-1", "cloud", "s"⟩ [116] (List.replicate 32 4) (.ok ⟨"u", "b", "k"⟩)
      (.ok ()) (.ok ()) ⟨"in.env", "out.snap", [], "", false, false, "", false⟩ [] 0
      ⟨.raw [1], 0o644⟩ (by decide) (by decide) (by decide) (by decide) (by decide)
      (by decide),
   c10_cloud_local_copy_bypasses_force.2.2
      [("in.env", ⟨.raw [70], 0o600⟩), ("out.snap", ⟨.raw [1], 0o644⟩)] []
      ⟨"p", "proj-1", "cloud", "s"⟩ [116] (List.replicate 32 4) (.ok ⟨"u", "b", "k"⟩)
      (.ok ()) (.ok ()) ⟨"in.env", "out.snap", [112], "", false, false, "", false⟩ [] 0
      ⟨.raw [1], 0o644⟩ (by decide) (by decide) (by decide)⟩

end Secretsnap
